import Mathlib

/-!
Verification of the tron-escrow-interface reconciliation and escrow-flow
logic.  Every definition below is a shallow embedding of a function in the
Python source of the repository; the file and line of each origin is given in the
doc comment of the corresponding definition.
-/

set_option linter.unusedVariables false

namespace TronEscrow

/-- On-chain transaction states, as decoded by
`tron_escrow_usdt_client.py:get_transaction` (the `states` dict maps the raw
integer to one of five names, defaulting to `"UNKNOWN"`). -/
inductive TxState where
  | AWAITING_PAYMENT
  | AWAITING_DELIVERY
  | COMPLETE
  | DISPUTED
  | REFUNDED
  | UNKNOWN
deriving DecidableEq, Repr

/-- An on-chain escrow record as returned by
`tron_escrow_usdt_client.py:get_transaction` (fields `sender`, `recipient`,
`amount_units`, `state`, `created_at`, `deadline`, `sender_approved`,
`recipient_approved`; `amount_usdt` is derived as `amount_units / 10^6`). -/
structure TxRecord where
  sender : String
  recipient : String
  amountUnits : Nat
  state : TxState
  createdAt : Int
  deadline : Int
  senderApproved : Bool
  recipientApproved : Bool
deriving DecidableEq, Repr

/-- `units_to_usdt` applied to the raw amount of a record:
`tx_info["amount_usdt"] = amount_units / 1_000_000`. -/
def TxRecord.amountUsdt (r : TxRecord) : ℚ :=
  (r.amountUnits : ℚ) / 1000000

/-- Result of one per-record ledger lookup as seen by the bot handlers.
`ok r` is a decoded record; `missing` is `get_transaction` returning a falsy
value (`None`), which the client produces both for nonexistent records and
for chain errors it catches internally; `err` is an exception escaping to the
calling handler (caught there by its own `try`/`except`). -/
inductive FetchResult where
  | err
  | missing
  | ok (r : TxRecord)
deriving DecidableEq, Repr

/-- The external ledger as the bot observes it through the client wrapper:
`count` is `get_transaction_count()` (`none` = the query failed, the client
returns `None`, and arithmetic on it raises in the caller), `fetch i` is
`get_transaction(i)`. -/
structure Ledger where
  count : Option Nat
  fetch : Int → FetchResult

/-- The Python descending range `range(start, stop, -1)`: the list
`[start, start-1, ..., stop+1]`, empty when `start ≤ stop` (the stop bound is
exclusive, exactly as in Python). -/
def rangeDesc (start stop : Int) : List Int :=
  (List.range (start - stop).toNat).map (fun (k : Nat) => start - (k : Int))

/-- The index sequence of the reconciliation loop in
`unified_telegram_bot.py:1224`:
`range(total_transactions - 1, max(-1, total_transactions - 10), -1)`. -/
def scanIndices (n : Nat) : List Int :=
  rangeDesc ((n : Int) - 1) (max (-1) ((n : Int) - 10))

/-- The index sequence of the sync-script loop in
`sync_pending_transactions.py:103`: `range(total_transactions - 1, -1, -1)`,
i.e. every record index from the newest down to `0`. -/
def syncScanIndices (n : Nat) : List Int :=
  rangeDesc ((n : Int) - 1) (-1)

/-- Generic first-match search: the `for ... break` pattern shared by all
three reconciliation loops.  Returns the first element satisfying `p`. -/
def findFirst {α : Type} (p : α → Bool) : List α → Option α
  | [] => none
  | a :: t => if p a then some a else findFirst p t

/-- The indices actually passed to the ledger reader by a first-match loop:
every index up to and including the matching one (the loop `break`s after a
match, so later indices are never fetched). -/
def scanCalls {α : Type} (p : α → Bool) : List α → List α
  | [] => []
  | a :: t => if p a then [a] else a :: scanCalls p t

/-- The Python `str.lower()` method as used on TRON base58 addresses: per-character
lowercasing (addresses are ASCII, where `str.lower` and per-char lowercase
agree). -/
def strLower (s : String) : String := ⟨s.data.map Char.toLower⟩

/-- The match test of `unified_telegram_bot.py:1234-1236`:
`blockchain_recipient.lower() == recipient.lower() and
 tx_state == "AWAITING_DELIVERY"`. -/
def unifiedMatches (pendingRecipient : String) (r : TxRecord) : Bool :=
  strLower r.recipient == strLower pendingRecipient &&
    r.state == TxState.AWAITING_DELIVERY

/-- One iteration of the unified-bot scan body
(`unified_telegram_bot.py:1225-1241`): a lookup that raises (`err`, caught by
the inner `except ... continue`) or returns a falsy record (`missing`,
`if not tx_info: continue`) is skipped; otherwise the match test decides. -/
def scanStep (fetch : Int → FetchResult) (pendingRecipient : String)
    (i : Int) : Bool :=
  match fetch i with
  | .ok r => unifiedMatches pendingRecipient r
  | _ => false

/-- One iteration of the sync-script scan body
(`sync_pending_transactions.py:103-121`): same skip behaviour, but the match
condition additionally requires
`blockchain_id >= total_transactions - 10` (the lookback window is applied to
the match, not to the iteration range). -/
def syncStep (fetch : Int → FetchResult) (pendingRecipient : String)
    (n : Nat) (i : Int) : Bool :=
  match fetch i with
  | .ok r =>
      unifiedMatches pendingRecipient r && decide ((n : Int) - 10 ≤ i)
  | _ => false

/-- The index sequence of the advanced-bot scan
(`telegram_escrow_bot_advanced.py:662`):
`range(max(0, tx_count - 10), tx_count)` — ascending, oldest first; with
natural subtraction `n - 10 = max(0, n - 10)` and the length is
`min n 10`. -/
def advancedScanIndices (n : Nat) : List Nat :=
  List.range' (n - 10) (min n 10)

/-- `telegram_escrow_bot_advanced.py:716-724`, `matches_pending_transaction`:
`tx_info["recipient"].lower() == pending_data["recipient"].lower() and
 abs(tx_info["amount_usdt"] - pending_data["amount"]) < 0.000001`.
The state of the record is not consulted. -/
def matches_pending_transaction (r : TxRecord) (pendingRecipient : String)
    (pendingAmount : ℚ) : Bool :=
  strLower r.recipient == strLower pendingRecipient &&
    decide (|r.amountUsdt - pendingAmount| < 1 / 1000000)

/-- One iteration of the advanced-bot scan body
(`telegram_escrow_bot_advanced.py:663-666`):
`tx_info = get_transaction(tx_id); if tx_info and matches_pending_transaction(...)`.
The client converts chain errors to `None`, so `err`/`missing` are both
skipped here. -/
def advancedStep (fetch : Int → FetchResult) (pendingRecipient : String)
    (pendingAmount : ℚ) (i : Nat) : Bool :=
  match fetch (i : Int) with
  | .ok r => matches_pending_transaction r pendingRecipient pendingAmount
  | _ => false

/-- The advanced-bot reconciliation search
(`telegram_escrow_bot_advanced.py:661-667`): first match over the ascending
window. -/
def advancedFindMatch (fetch : Int → FetchResult) (pendingRecipient : String)
    (pendingAmount : ℚ) (n : Nat) : Option Nat :=
  findFirst (advancedStep fetch pendingRecipient pendingAmount)
    (advancedScanIndices n)

/-- A row of the SQLite `transactions` table created by
`unified_telegram_bot.py:init_db` (lines 162-184): columns
`id INTEGER PRIMARY KEY, user_id, amount_usdt, recipient, status, role,
created_at, uuid TEXT UNIQUE`.  `uuid` is nullable. -/
structure DbRow where
  id : Int
  userId : String
  amountUsdt : ℚ
  recipient : String
  status : String
  role : String
  createdAt : Int
  uuid : Option String
deriving DecidableEq, Repr

/-- Two rows conflict on a unique constraint of the `transactions` table:
same `id` (PRIMARY KEY) or same non-null `uuid` (`TEXT UNIQUE`; SQL `NULL`s
never conflict with each other). -/
def rowConflict (r x : DbRow) : Bool :=
  x.id == r.id ||
    (match r.uuid, x.uuid with
     | some a, some b => a == b
     | _, _ => false)

/-- `unified_telegram_bot.py:db_add_transaction` (lines 204-216) and the
identical statement in `sync_pending_transactions.py:130-133`:
`INSERT OR REPLACE INTO transactions ...`.  The SQLite `OR REPLACE` clause deletes
every existing row that would violate a uniqueness constraint with the new
row, then inserts the new row. -/
def db_add_transaction (db : List DbRow) (row : DbRow) : List DbRow :=
  row :: db.filter (fun x => ! rowConflict row x)

/-- `unified_telegram_bot.py:db_get_transaction_by_uuid` (lines 218-235):
`SELECT ... FROM transactions WHERE uuid = ?` with `fetchone()`. -/
def dbGetByUuid (db : List DbRow) (u : String) : Option DbRow :=
  db.find? (fun r => r.uuid == some u)

/-- An entry of the pending-transactions JSON store
(`pending_transactions.json`; shape set in
`unified_telegram_bot.py:create_escrow_handler` lines 633-640 and filled in
by `handle_amount_input` lines 760-769): `user_id`, `created_at`, `status`,
and a `data` dict holding `recipient` and `amount` once the flow completes
(`none` while `data` is still the empty dict `{}`). -/
structure PendingTx where
  userId : String
  createdAt : Int
  status : String
  data : Option (String × ℚ)
deriving DecidableEq, Repr

/-- `pending_data.get("data").get("recipient")` with empty-dict and empty-string defaults
(`unified_telegram_bot.py:1208`). -/
def PendingTx.recipient (p : PendingTx) : String :=
  (p.data.map Prod.fst).getD ""

/-- `pending_data.get("data").get("amount")` with empty-dict and zero defaults
(`unified_telegram_bot.py:1207`). -/
def PendingTx.amount (p : PendingTx) : ℚ :=
  (p.data.map Prod.snd).getD 0

/-- The pending store: the JSON object is a dict keyed by UUID, embedded as
an association list with unique keys. -/
abbrev PendingStore : Type := List (String × PendingTx)

/-- Python `pending_transactions[u]` / `u in pending_transactions`. -/
def lookupPending (s : PendingStore) (u : String) : Option PendingTx :=
  ((s : List (String × PendingTx)).find? (fun kv => kv.1 == u)).map (·.2)

/-- Python `del pending_transactions[u]`. -/
def erasePending (s : PendingStore) (u : String) : PendingStore :=
  (s : List (String × PendingTx)).filter (fun kv => kv.1 != u)

/-- Python `pending_transactions[u].update(...)` guarded by
`if u in pending_transactions` — in-place update of the entry at key `u`,
no-op when the key is absent. -/
def updatePending (s : PendingStore) (u : String) (f : PendingTx → PendingTx) :
    PendingStore :=
  (s : List (String × PendingTx)).map
    (fun kv => if kv.1 == u then (kv.1, f kv.2) else kv)

/-- One ledger query made by a handler: the record-count call or a
per-record lookup. -/
inductive LedgerCall where
  | count
  | get (i : Int)
deriving DecidableEq, Repr

/-- Outcome of `check_tx_status_handler`, one constructor per user-facing
message branch (`unified_telegram_bot.py:1173-1307`). -/
inductive CheckResult where
  | alreadyConfirmed (row : DbRow)
  | found (blockchainId : Int)
  | notYetFound
  | ledgerError
  | uuidUnknown
deriving DecidableEq, Repr

/-- `unified_telegram_bot.py:check_tx_status_handler` (lines 1173-1307),
the reconciliation of a pending UUID in the unified bot.  Returns the outcome,
the updated confirmed store, the updated pending store, and the trace of
ledger queries issued, in order:
  * lines 1184-1202: if the UUID is already in the DB, report it from the
    cache — no ledger client is created, no ledger query happens;
  * lines 1204-1292: if the UUID is pending, query the record count
    (`none` = the count query failed; the client returns `None` and
    `None - 1` raises, landing in the `except` of lines 1285-1292 →
    `ledgerError`), then scan `scanIndices n` for the first record whose
    recipient matches case-insensitively with state `AWAITING_DELIVERY`;
    on a match (lines 1243-1267) insert the row
    `(id := match, ..., status := "AWAITING_DELIVERY", role := "creator",
    uuid := the UUID)` and delete the UUID from pending; otherwise
    (lines 1268-1283) report not-yet-found and change nothing;
  * lines 1294-1300: a UUID in neither store → `uuidUnknown`. -/
def check_tx_status (db : List DbRow) (pending : PendingStore) (L : Ledger)
    (userId txUuid : String) :
    CheckResult × List DbRow × PendingStore × List LedgerCall :=
  match dbGetByUuid db txUuid with
  | some row => (.alreadyConfirmed row, db, pending, [])
  | none =>
    match lookupPending pending txUuid with
    | none => (.uuidUnknown, db, pending, [])
    | some p =>
      match L.count with
      | none => (.ledgerError, db, pending, [.count])
      | some n =>
        let idxs := scanIndices n
        let step := scanStep L.fetch p.recipient
        let calls := LedgerCall.count :: (scanCalls step idxs).map .get
        match findFirst step idxs with
        | some i =>
            let row : DbRow :=
              { id := i, userId := userId, amountUsdt := p.amount,
                recipient := p.recipient, status := "AWAITING_DELIVERY",
                role := "creator", createdAt := p.createdAt,
                uuid := some txUuid }
            (.found i, db_add_transaction db row,
              erasePending pending txUuid, calls)
        | none => (.notYetFound, db, pending, calls)

/-- The per-user flow step stored in `self.user_states[user_id]["state"]`
(`unified_telegram_bot.py:657-671`). -/
inductive FlowStep where
  | waitingRecipient
  | waitingAmount
  | waitingTransactionId
deriving DecidableEq, Repr

/-- One entry of `self.user_states`
(`unified_telegram_bot.py:create_escrow_handler`, lines 626-631):
the step, the UUID generated at flow start, and `data["recipient"]` once the
recipient step has completed. -/
structure UserFlow where
  step : FlowStep
  transactionId : String
  recipient : Option String
deriving DecidableEq, Repr

/-- Outcome of an amount-entry step: `rejected` re-prompts and stays at the
amount step, `accepted` proceeds to link generation. -/
inductive AmountOutcome where
  | rejected
  | accepted
deriving DecidableEq, Repr

/-- `unified_telegram_bot.py:handle_amount_input` (lines 704-774).  The text
the user typed is embedded post-`float()`: `none` models a string on which
`float(amount_text)` raises `ValueError` (e.g. `"abc"`), `some a` the parsed
value.  Rejection (parse failure, `amount <= 0 or amount > 10000`) replies
and returns with every store untouched and the user still at the amount step
(lines 710-719).  Acceptance updates the pending entry in place to
`status "pending_signature"` with recipient and amount data (lines
760-769, guarded by `if transaction_id in self.pending_transactions`) and
deletes the flow state of the user (line 772). -/
def handle_amount_input (pending : PendingStore) (flow : UserFlow)
    (input : Option ℚ) : PendingStore × Option UserFlow × AmountOutcome :=
  match input with
  | none => (pending, some flow, .rejected)
  | some a =>
    if a ≤ 0 || 10000 < a then (pending, some flow, .rejected)
    else
      let upd := updatePending pending flow.transactionId
        (fun p => { p with status := "pending_signature",
                           data := some (flow.recipient.getD "", a) })
      (upd, none, .accepted)

/-- `telegram_escrow_bot_advanced.py:create_escrow_step_handler`, the
`step == "amount"` branch (lines 381-408).  Parse failure or
`amount <= 5.0` or `amount > 1000000` raises `ValueError`, is caught, and
re-prompts with nothing persisted; otherwise a fresh UUID is generated and a
`pending_signature` entry with the recipient and amount is inserted into the
pending store. -/
def advanced_amount_step (pending : PendingStore) (userId recipient : String)
    (newUuid : String) (now : Int) (input : Option ℚ) :
    PendingStore × AmountOutcome :=
  match input with
  | none => (pending, .rejected)
  | some a =>
    if a ≤ 5 || 1000000 < a then (pending, .rejected)
    else
      ((newUuid,
        { userId := userId, createdAt := now,
          status := "pending_signature",
          data := some (recipient, a) }) :: (pending : List (String × PendingTx)),
        .accepted)

/-- The fixed platform fee, 5 USDT, as displayed and enforced by the
advanced bot (`telegram_escrow_bot_advanced.py:376-385`: "Комиссия
платформы: 5 USDT", minimum 5.01, check `amount <= 5.0`). -/
def PLATFORM_FEE : ℚ := 5

/-- Outcome of the confirm-delivery pre-flight in
`handle_transaction_id_input`, one constructor per message branch. -/
inductive ConfirmOutcome where
  | notFoundMsg
  | stateConflict (s : TxState)
  | checkError
  | signingLink (txId : Int)
deriving DecidableEq, Repr

/-- The pre-flight check of
`unified_telegram_bot.py:handle_transaction_id_input` (lines 856-925),
starting from the resolved numeric transaction id: `get_transaction(tx_id)`
returning a falsy value → "Сделка не найдена", no link (lines 867-881); a
state other than `AWAITING_DELIVERY` → the conflicting state is shown, no
link (lines 883-906); an exception during the check → caught at lines
908-925, error message, no link; only an existing record in state
`AWAITING_DELIVERY` falls through to the TronLink link construction (lines
927 onward), whose payload carries `transactionId = tx_id`. -/
def handle_transaction_id_preflight (fetch : Int → FetchResult)
    (txId : Int) : ConfirmOutcome :=
  match fetch txId with
  | .err => .checkError
  | .missing => .notFoundMsg
  | .ok r =>
      if r.state == TxState.AWAITING_DELIVERY then .signingLink txId
      else .stateConflict r.state

/-- The observable condition of a JSON store file at load time: absent,
unreadable (`open`/`read` raises), syntactically invalid
(`json.load` raises), or valid with the given contents. -/
inductive FileState (α : Type) where
  | missing
  | unreadable
  | invalidJson
  | valid (content : α)

/-- `unified_telegram_bot.py:load_pending_transactions` (lines 129-137):
`if os.path.exists: return json.load(...)` inside
`try ... except Exception: log`, falling through to `return {}` — a missing,
unreadable or invalid file yields the empty dict, never an exception. -/
def load_pending_transactions : FileState PendingStore → PendingStore
  | .valid m => m
  | _ => ([] : List (String × PendingTx))

/-- `uuid_mapping.py:UUIDMapping.load_mapping` (lines 22-30): identical
shape, returning the UUID→blockchain-id dict or `{}`. -/
def load_mapping : FileState (List (String × Int)) → List (String × Int)
  | .valid m => m
  | _ => []

/-- The uniqueness invariant of the `transactions` table
(`id INTEGER PRIMARY KEY`, `uuid TEXT UNIQUE`): pairwise distinct ids, and
pairwise distinct uuids whenever both are non-null. -/
def rowsCompatible (a b : DbRow) : Prop :=
  a.id ≠ b.id ∧ (a.uuid = none ∨ a.uuid ≠ b.uuid)

instance : DecidableRel rowsCompatible := fun a b => by
  unfold rowsCompatible; infer_instance

def dbInvariant (db : List DbRow) : Prop :=
  db.Pairwise rowsCompatible

instance (db : List DbRow) : Decidable (dbInvariant db) :=
  List.instDecidablePairwise db

/-! ### Helper lemmas about the scan machinery -/

theorem mem_rangeDesc {i start stop : Int} :
    i ∈ rangeDesc start stop ↔ stop < i ∧ i ≤ start := by
  unfold rangeDesc
  rw [List.mem_map]
  constructor
  · rintro ⟨k, hk, rfl⟩
    rw [List.mem_range] at hk
    exact ⟨by omega, by omega⟩
  · rintro ⟨h1, h2⟩
    refine ⟨(start - i).toNat, ?_, ?_⟩
    · rw [List.mem_range]; omega
    · omega

theorem pairwise_rangeDesc (start stop : Int) :
    (rangeDesc start stop).Pairwise (· > ·) := by
  unfold rangeDesc
  exact (List.pairwise_lt_range _).map _ (fun a b h => by omega)

theorem mem_scanIndices {n : Nat} {i : Int} :
    i ∈ scanIndices n ↔ max 0 ((n : Int) - 9) ≤ i ∧ i ≤ (n : Int) - 1 := by
  unfold scanIndices
  rw [mem_rangeDesc]
  omega

theorem pairwise_scanIndices (n : Nat) :
    (scanIndices n).Pairwise (· > ·) :=
  pairwise_rangeDesc _ _

theorem mem_syncScanIndices {n : Nat} {i : Int} :
    i ∈ syncScanIndices n ↔ 0 ≤ i ∧ i ≤ (n : Int) - 1 := by
  unfold syncScanIndices
  rw [mem_rangeDesc]
  omega

theorem findFirst_eq_some {α : Type} {p : α → Bool} {l : List α} {i : α}
    (h : findFirst p l = some i) : i ∈ l ∧ p i = true := by
  induction l with
  | nil => simp [findFirst] at h
  | cons a t ih =>
    by_cases hpa : p a = true
    · simp [findFirst, hpa] at h
      subst h
      exact ⟨List.mem_cons_self _ _, hpa⟩
    · simp [findFirst, hpa] at h
      obtain ⟨hm, hp⟩ := ih h
      exact ⟨List.mem_cons_of_mem _ hm, hp⟩

theorem findFirst_max {p : Int → Bool} {l : List Int} {i : Int}
    (hsort : l.Pairwise (· > ·)) (h : findFirst p l = some i) :
    ∀ j ∈ l, p j = true → j ≤ i := by
  induction l with
  | nil => simp
  | cons a t ih =>
    rw [List.pairwise_cons] at hsort
    by_cases hpa : p a = true
    · simp [findFirst, hpa] at h
      subst h
      intro j hj hpj
      rcases List.mem_cons.mp hj with rfl | hj
      · exact le_refl _
      · exact le_of_lt (hsort.1 j hj)
    · simp [findFirst, hpa] at h
      intro j hj hpj
      rcases List.mem_cons.mp hj with rfl | hj
      · exact absurd hpj hpa
      · exact ih hsort.2 h j hj hpj

theorem scanCalls_subset {α : Type} {p : α → Bool} {l : List α} :
    ∀ a ∈ scanCalls p l, a ∈ l := by
  induction l with
  | nil => simp [scanCalls]
  | cons a t ih =>
    intro b hb
    by_cases hpa : p a = true
    · simp [scanCalls, hpa] at hb
      simp [hb]
    · simp [scanCalls, hpa] at hb
      rcases hb with rfl | hb
      · exact List.mem_cons_self _ _
      · exact List.mem_cons_of_mem _ (ih b hb)

theorem findFirst_skip {α : Type} {p : α → Bool} {k : α} (l₁ l₂ : List α)
    (hk : p k = false) :
    findFirst p (l₁ ++ k :: l₂) = findFirst p (l₁ ++ l₂) := by
  induction l₁ with
  | nil => simp [findFirst, hk]
  | cons a t ih => by_cases hpa : p a = true <;> simp [findFirst, hpa, ih]

theorem syncStep_window {fetch : Int → FetchResult} {rec : String}
    {n : Nat} {i : Int} (h : syncStep fetch rec n i = true) :
    (n : Int) - 10 ≤ i := by
  unfold syncStep at h
  cases hf : fetch i <;> rw [hf] at h <;> simp_all

theorem unifiedMatches_iff (rec : String) (r : TxRecord) :
    unifiedMatches rec r = true ↔
      strLower r.recipient = strLower rec ∧ r.state = .AWAITING_DELIVERY := by
  simp [unifiedMatches]

theorem matches_iff (r : TxRecord) (rec : String) (amt : ℚ) :
    matches_pending_transaction r rec amt = true ↔
      strLower r.recipient = strLower rec ∧
        |r.amountUsdt - amt| < 1 / 1000000 := by
  simp [matches_pending_transaction]

/-! ### Claim C1 (corrected) -/

/-- C1, counterexample.  The claim says every reconciliation scan examines
records from `N-1` down to `max(0, N-10)` inclusive and never invokes the
reader outside the last-10 index range.  With `N = 12` and a ledger on which
nothing matches, the unified-bot handler queries exactly indices `11..3` —
it stops before `max(0, 12-10) = 2`, so index 2 is never examined — and the
sync script iterates its reader down to index `0`, far outside the last-10
range. -/
theorem C1_counterexample :
    ((check_tx_status []
        [("u1", ⟨"7", 0, "pending_signature", some ("Trec", 10)⟩)]
        ⟨some 12, fun _ => .missing⟩ "7" "u1").2.2.2
      = [.count, .get 11, .get 10, .get 9, .get 8, .get 7, .get 6, .get 5,
         .get 4, .get 3])
    ∧ LedgerCall.get 2 ∉ (check_tx_status []
        [("u1", ⟨"7", 0, "pending_signature", some ("Trec", 10)⟩)]
        ⟨some 12, fun _ => .missing⟩ "7" "u1").2.2.2
    ∧ max 0 ((12 : Int) - 10) = 2
    ∧ (0 : Int) ∈ syncScanIndices 12 := by
  decide

/-- C1, amended: the unified-bot reconciliation scan runs in descending
order from `N-1` down to `max(0, N-9)` inclusive (the Python `range` stop is
exclusive, so at most 9 records are examined and index `N-10` is never
read), and every per-record ledger query it issues lies in that range; the
sync script instead iterates the reader over every index from `N-1` down to
`0`, but its match predicate only accepts indices `≥ N-10`. -/
theorem C1_lookback_window :
    (∀ (n : Nat) (i : Int),
        i ∈ scanIndices n ↔ max 0 ((n : Int) - 9) ≤ i ∧ i ≤ (n : Int) - 1)
    ∧ (∀ (db : List DbRow) (pending : PendingStore) (L : Ledger)
        (uid u : String) (n : Nat) (i : Int),
        L.count = some n →
        LedgerCall.get i ∈ (check_tx_status db pending L uid u).2.2.2 →
        max 0 ((n : Int) - 9) ≤ i ∧ i ≤ (n : Int) - 1)
    ∧ (∀ (n : Nat) (i : Int),
        i ∈ syncScanIndices n ↔ 0 ≤ i ∧ i ≤ (n : Int) - 1)
    ∧ (∀ (fetch : Int → FetchResult) (rec : String) (n : Nat) (i : Int),
        syncStep fetch rec n i = true → (n : Int) - 10 ≤ i) := by
  refine ⟨fun n i => mem_scanIndices, ?_, fun n i => mem_syncScanIndices,
    fun fetch rec n i h => syncStep_window h⟩
  intro db pending L uid u n i hc hmem
  rw [← mem_scanIndices]
  cases hdb : dbGetByUuid db u with
  | some row => simp [check_tx_status, hdb] at hmem
  | none =>
    cases hp : lookupPending pending u with
    | none => simp [check_tx_status, hdb, hp] at hmem
    | some p =>
      cases hf : findFirst (scanStep L.fetch p.recipient) (scanIndices n) with
      | none =>
        simp [check_tx_status, hdb, hp, hc, hf] at hmem
        exact scanCalls_subset i hmem
      | some j =>
        simp [check_tx_status, hdb, hp, hc, hf] at hmem
        exact scanCalls_subset i hmem

/-- C1, witness for the amended theorem: with a 12-record ledger the index
of a query issued by the handler, here 11, lies within the amended
window. -/
theorem C1_lookback_window_witness :
    max 0 ((12 : Int) - 9) ≤ 11 ∧ 11 ≤ (12 : Int) - 1 :=
  C1_lookback_window.2.1 []
    [("u1", ⟨"7", 0, "pending_signature", some ("Trec", 10)⟩)]
    ⟨some 12, fun _ => .missing⟩ "7" "u1" 12 11 rfl (by decide)

/-! ### Claim C4 (confirmed) -/

/-- C4: if a confirmed row with `localId = uuid` already exists, the
reconciliation handler returns it immediately, leaves both stores untouched,
and issues no ledger query at all (neither the record count nor any
per-record lookup); calling it again therefore returns the same row again
with no ledger scan. -/
theorem C4_fast_path :
    ∀ (db : List DbRow) (pending : PendingStore) (L : Ledger)
      (uid u : String) (row : DbRow),
      dbGetByUuid db u = some row →
      check_tx_status db pending L uid u =
        (.alreadyConfirmed row, db, pending, []) := by
  intro db pending L uid u row h
  simp [check_tx_status, h]

/-- C4, witness: a concrete already-confirmed UUID takes the fast path. -/
theorem C4_fast_path_witness :
    check_tx_status
      [⟨3, "7", 10, "Trec", "AWAITING_DELIVERY", "creator", 0, some "u9"⟩]
      [] ⟨some 5, fun _ => .missing⟩ "7" "u9"
    = (.alreadyConfirmed
        ⟨3, "7", 10, "Trec", "AWAITING_DELIVERY", "creator", 0, some "u9"⟩,
       [⟨3, "7", 10, "Trec", "AWAITING_DELIVERY", "creator", 0, some "u9"⟩],
       [], []) :=
  C4_fast_path
    [⟨3, "7", 10, "Trec", "AWAITING_DELIVERY", "creator", 0, some "u9"⟩]
    [] ⟨some 5, fun _ => .missing⟩ "7" "u9"
    ⟨3, "7", 10, "Trec", "AWAITING_DELIVERY", "creator", 0, some "u9"⟩
    (by decide)

/-! ### Claim C5 (confirmed) -/

/-- C5: when the scan exhausts the window without a match, the handler
reports not-yet-found and leaves both stores exactly as they were: the
pending escrow stays in the pending store with its status intact and no
confirmed row is created. -/
theorem C5_not_yet_found :
    ∀ (db : List DbRow) (pending : PendingStore) (L : Ledger)
      (uid u : String) (p : PendingTx) (n : Nat),
      dbGetByUuid db u = none →
      lookupPending pending u = some p →
      L.count = some n →
      findFirst (scanStep L.fetch p.recipient) (scanIndices n) = none →
      check_tx_status db pending L uid u =
        (.notYetFound, db, pending,
          .count ::
            (scanCalls (scanStep L.fetch p.recipient) (scanIndices n)).map
              .get) := by
  intro db pending L uid u p n hdb hp hc hf
  simp [check_tx_status, hdb, hp, hc, hf]

/-- C5, witness: the spec scenario with the only candidate record (index 11
of 12) in state `COMPLETE` — reconciling yields not-yet-found and `"u1"`
remains pending with status `pending_signature`. -/
theorem C5_not_yet_found_witness :
    check_tx_status []
      [("u1", ⟨"7", 0, "pending_signature", some ("TAAA1", 10)⟩)]
      ⟨some 12, fun i => if i == 11 then
          .ok ⟨"Ts", "taaa1", 10000000, .COMPLETE, 0, 0, false, false⟩
        else .missing⟩ "7" "u1"
    = (.notYetFound, [],
       [("u1", ⟨"7", 0, "pending_signature", some ("TAAA1", 10)⟩)],
       [.count, .get 11, .get 10, .get 9, .get 8, .get 7, .get 6, .get 5,
        .get 4, .get 3]) := by
  have h := C5_not_yet_found []
    [("u1", ⟨"7", 0, "pending_signature", some ("TAAA1", 10)⟩)]
    ⟨some 12, fun i => if i == 11 then
        .ok ⟨"Ts", "taaa1", 10000000, .COMPLETE, 0, 0, false, false⟩
      else .missing⟩ "7" "u1"
    ⟨"7", 0, "pending_signature", some ("TAAA1", 10)⟩ 12
    rfl (by decide) rfl (by decide)
  rw [h]
  decide

/-! ### Claim C6 (confirmed) -/

/-- C6: a failing per-record ledger lookup is skipped without aborting the
scan of the remaining indices (dropping an erroring index from the scan list
changes nothing), while a failure of the record-count query makes the whole
check report a transient ledger error, a branch distinct from
not-yet-found. -/
theorem C6_failure_semantics :
    (∀ (fetch : Int → FetchResult) (rec : String) (k : Int)
        (l₁ l₂ : List Int),
        fetch k = .err →
        findFirst (scanStep fetch rec) (l₁ ++ k :: l₂)
          = findFirst (scanStep fetch rec) (l₁ ++ l₂))
    ∧ (∀ (db : List DbRow) (pending : PendingStore) (L : Ledger)
        (uid u : String) (p : PendingTx),
        dbGetByUuid db u = none →
        lookupPending pending u = some p →
        L.count = none →
        check_tx_status db pending L uid u =
          (.ledgerError, db, pending, [.count]))
    ∧ CheckResult.ledgerError ≠ CheckResult.notYetFound := by
  refine ⟨?_, ?_, by decide⟩
  · intro fetch rec k l₁ l₂ herr
    apply findFirst_skip
    simp [scanStep, herr]
  · intro db pending L uid u p hdb hp hc
    simp [check_tx_status, hdb, hp, hc]

/-- C6, witness: with an erroring lookup at index 5, scanning `[7, 5, 3]`
gives the same result as scanning `[7, 3]` (the record at 3 is still
reached), and a failed record-count query on a concrete pending UUID yields
the transient-error outcome. -/
theorem C6_failure_semantics_witness :
    (findFirst
        (scanStep (fun i => if i == 5 then .err else .missing) "Trec")
        [7, 5, 3]
      = findFirst
          (scanStep (fun i => if i == 5 then .err else .missing) "Trec")
          [7, 3])
    ∧ check_tx_status []
        [("u1", ⟨"7", 0, "pending_signature", some ("Trec", 10)⟩)]
        ⟨none, fun _ => .missing⟩ "7" "u1"
      = (.ledgerError, [],
         [("u1", ⟨"7", 0, "pending_signature", some ("Trec", 10)⟩)],
         [.count]) :=
  ⟨C6_failure_semantics.1 (fun i => if i == 5 then .err else .missing)
      "Trec" 5 [7] [3] (by decide),
   C6_failure_semantics.2.1 []
      [("u1", ⟨"7", 0, "pending_signature", some ("Trec", 10)⟩)]
      ⟨none, fun _ => .missing⟩ "7" "u1"
      ⟨"7", 0, "pending_signature", some ("Trec", 10)⟩
      rfl (by decide) rfl⟩

/-! ### Claim C2 (corrected) -/

/-- C2, counterexample.  The claim says no reconciliation variant ever
reports a match for a record whose state differs from `AWAITING_DELIVERY`
and that the amount is not a match key.  The advanced-bot reconciliation
(`matches_pending_transaction`) contradicts both: a `COMPLETE` record with
matching recipient and amount is reported as a match (here the only record
of a 1-record ledger), and a record differing only in amount is not a
match. -/
theorem C2_counterexample :
    (advancedFindMatch
        (fun i => if i == 0 then
          .ok ⟨"Ts", "TX", 10000000, .COMPLETE, 0, 0, false, false⟩
         else .missing) "tx" 10 1 = some 0)
    ∧ TxState.COMPLETE ≠ TxState.AWAITING_DELIVERY
    ∧ matches_pending_transaction
        ⟨"Ts", "TX", 10000000, .AWAITING_DELIVERY, 0, 0, false, false⟩
        "tx" 3 = false := by
  have hm : matches_pending_transaction
      ⟨"Ts", "TX", 10000000, .COMPLETE, 0, 0, false, false⟩ "tx" 10 = true := by
    rw [matches_iff]
    refine ⟨by decide, ?_⟩
    unfold TxRecord.amountUsdt
    norm_num
  refine ⟨?_, by decide, ?_⟩
  · have hl : advancedScanIndices 1 = [0] := by decide
    have s0 : advancedStep
        (fun i => if i == 0 then
          .ok ⟨"Ts", "TX", 10000000, .COMPLETE, 0, 0, false, false⟩
         else .missing) "tx" 10 0 = true := hm
    unfold advancedFindMatch
    rw [hl]
    simp only [findFirst, s0, if_true]
  · rw [Bool.eq_false_iff]
    intro hcontr
    rw [matches_iff] at hcontr
    have := hcontr.2
    unfold TxRecord.amountUsdt at this
    norm_num at this

/-- C2, amended: the unified-bot handler (and the sync script, which uses
the same test plus a window bound) matches a record exactly when the
recipient addresses agree case-insensitively and the state is
`AWAITING_DELIVERY`, with the amount unused, and a record it reports as
found always has state `AWAITING_DELIVERY`; the advanced-bot variant
instead matches on recipient (case-insensitive) and amount within `1e-6`
USDT, ignoring the state entirely. -/
theorem C2_match_predicate :
    (∀ (rec : String) (r : TxRecord),
        unifiedMatches rec r = true ↔
          strLower r.recipient = strLower rec ∧
            r.state = .AWAITING_DELIVERY)
    ∧ (∀ (db : List DbRow) (pending : PendingStore) (L : Ledger)
        (uid u : String) (i : Int),
        (check_tx_status db pending L uid u).1 = .found i →
        ∃ p r, lookupPending pending u = some p ∧ L.fetch i = .ok r ∧
          strLower r.recipient = strLower p.recipient ∧
          r.state = .AWAITING_DELIVERY)
    ∧ (∀ (r : TxRecord) (rec : String) (amt : ℚ),
        matches_pending_transaction r rec amt = true ↔
          strLower r.recipient = strLower rec ∧
            |r.amountUsdt - amt| < 1 / 1000000) := by
  refine ⟨unifiedMatches_iff, ?_, matches_iff⟩
  intro db pending L uid u i hres
  cases hdb : dbGetByUuid db u with
  | some row => simp [check_tx_status, hdb] at hres
  | none =>
    cases hp : lookupPending pending u with
    | none => simp [check_tx_status, hdb, hp] at hres
    | some p =>
      cases hc : L.count with
      | none => simp [check_tx_status, hdb, hp, hc] at hres
      | some n =>
        cases hf : findFirst (scanStep L.fetch p.recipient) (scanIndices n)
          with
        | none => simp [check_tx_status, hdb, hp, hc, hf] at hres
        | some j =>
          simp [check_tx_status, hdb, hp, hc, hf] at hres
          subst hres
          have h2 := (findFirst_eq_some hf).2
          cases hr : L.fetch j with
          | err => simp [scanStep, hr] at h2
          | missing => simp [scanStep, hr] at h2
          | ok r =>
            rw [scanStep, hr] at h2
            rw [unifiedMatches_iff] at h2
            exact ⟨p, r, rfl, rfl, h2.1, h2.2⟩

/-- C2, witness for the amended theorem: a concrete record with matching
recipient (differing only in letter case) and state `AWAITING_DELIVERY` is a
match for the unified-bot predicate. -/
theorem C2_match_predicate_witness :
    unifiedMatches "tx"
      ⟨"Ts", "TX", 5, .AWAITING_DELIVERY, 0, 0, false, false⟩ = true :=
  (C2_match_predicate.1 "tx"
      ⟨"Ts", "TX", 5, .AWAITING_DELIVERY, 0, 0, false, false⟩).mpr
    ⟨by decide, rfl⟩

/-! ### Claim C3 (corrected) -/

/-- C3, counterexample.  The claim says reconciliation always picks the
match with the largest on-chain index.  The advanced-bot variant scans its
window in ascending order: with a 12-record ledger whose records 3 and 11
both satisfy the match predicate, it reports 3, not 11. -/
theorem C3_counterexample :
    (advancedFindMatch
        (fun i => if i == 3 || i == 11 then
          .ok ⟨"Ts", "TX", 10000000, .AWAITING_DELIVERY, 0, 0, false, false⟩
         else .missing) "tx" 10 12 = some 3)
    ∧ advancedStep
        (fun i => if i == 3 || i == 11 then
          .ok ⟨"Ts", "TX", 10000000, .AWAITING_DELIVERY, 0, 0, false, false⟩
         else .missing) "tx" 10 11 = true
    ∧ (3 : Nat) ≠ 11 := by
  have hm : matches_pending_transaction
      ⟨"Ts", "TX", 10000000, .AWAITING_DELIVERY, 0, 0, false, false⟩
      "tx" 10 = true := by
    rw [matches_iff]
    refine ⟨by decide, ?_⟩
    unfold TxRecord.amountUsdt
    norm_num
  have s2 : advancedStep
      (fun i => if i == 3 || i == 11 then
        .ok ⟨"Ts", "TX", 10000000, .AWAITING_DELIVERY, 0, 0, false, false⟩
       else .missing) "tx" 10 2 = false := rfl
  have s3 : advancedStep
      (fun i => if i == 3 || i == 11 then
        .ok ⟨"Ts", "TX", 10000000, .AWAITING_DELIVERY, 0, 0, false, false⟩
       else .missing) "tx" 10 3 = true := hm
  have s11 : advancedStep
      (fun i => if i == 3 || i == 11 then
        .ok ⟨"Ts", "TX", 10000000, .AWAITING_DELIVERY, 0, 0, false, false⟩
       else .missing) "tx" 10 11 = true := hm
  refine ⟨?_, s11, by decide⟩
  have hl : advancedScanIndices 12 = [2, 3, 4, 5, 6, 7, 8, 9, 10, 11] := by
    decide
  unfold advancedFindMatch
  rw [hl]
  simp only [findFirst, s2, s3, if_true, if_false, Bool.false_eq_true]

/-- C3, amended: the unified-bot handler stops at the first match in
most-recent-first order — the reported index is maximal among all matching
indices of the scanned window — and on a match it inserts a confirmed row
carrying the discovered on-chain id together with the originating UUID,
removes the UUID from the pending store, and reports success; the
advanced-bot variant scans its window in ascending order instead, so there
the first match is the smallest matching index. -/
theorem C3_first_match_materializes :
    ∀ (db : List DbRow) (pending : PendingStore) (L : Ledger)
      (uid u : String) (p : PendingTx) (n : Nat) (i : Int),
      dbGetByUuid db u = none →
      lookupPending pending u = some p →
      L.count = some n →
      findFirst (scanStep L.fetch p.recipient) (scanIndices n) = some i →
      check_tx_status db pending L uid u =
        (.found i,
         db_add_transaction db
           { id := i, userId := uid, amountUsdt := p.amount,
             recipient := p.recipient, status := "AWAITING_DELIVERY",
             role := "creator", createdAt := p.createdAt,
             uuid := some u },
         erasePending pending u,
         .count ::
           (scanCalls (scanStep L.fetch p.recipient) (scanIndices n)).map
             .get)
      ∧ scanStep L.fetch p.recipient i = true
      ∧ (∀ j ∈ scanIndices n, scanStep L.fetch p.recipient j = true →
          j ≤ i) := by
  intro db pending L uid u p n i hdb hp hc hf
  refine ⟨by simp [check_tx_status, hdb, hp, hc, hf],
    (findFirst_eq_some hf).2,
    findFirst_max (pairwise_scanIndices n) hf⟩

/-- C3, witness: the spec scenario — pending UUID `"u1"`, 12 ledger records,
record 11 matching by recipient (case-insensitively) with state
`AWAITING_DELIVERY` — yields on-chain id 11, a confirmed row with
`localId = "u1"`, and removes `"u1"` from the pending store. -/
theorem C3_first_match_materializes_witness :
    check_tx_status []
      [("u1", ⟨"7", 0, "pending_signature", some ("TAAA1", 10)⟩)]
      ⟨some 12, fun i => if i == 11 then
          .ok ⟨"Ts", "taaa1", 10000000, .AWAITING_DELIVERY, 0, 0, false,
               false⟩
        else .missing⟩ "7" "u1"
    = (.found 11,
       [{ id := 11, userId := "7", amountUsdt := 10, recipient := "TAAA1",
          status := "AWAITING_DELIVERY", role := "creator", createdAt := 0,
          uuid := some "u1" }],
       [], [.count, .get 11]) := by
  have h := C3_first_match_materializes []
    [("u1", ⟨"7", 0, "pending_signature", some ("TAAA1", 10)⟩)]
    ⟨some 12, fun i => if i == 11 then
        .ok ⟨"Ts", "taaa1", 10000000, .AWAITING_DELIVERY, 0, 0, false,
             false⟩
      else .missing⟩ "7" "u1"
    ⟨"7", 0, "pending_signature", some ("TAAA1", 10)⟩ 12 11
    rfl (by decide) rfl (by decide)
  rw [h.1]
  decide

/-! ### Claim C7 (corrected) -/

/-- C7, counterexample.  The claim says every amount less than or equal to
the fixed platform fee (5 USDT) is rejected at the amount step with no
pending escrow persisted.  The unified-bot amount handler only checks
`amount <= 0 or amount > 10000`: the amount 3 — below the 5-USDT fee — is
accepted, and a `pending_signature` escrow is persisted for it. -/
theorem C7_counterexample :
    (3 : ℚ) ≤ PLATFORM_FEE
    ∧ (handle_amount_input [("u1", ⟨"7", 0, "creating", none⟩)]
        ⟨.waitingAmount, "u1", some "TADDR"⟩ (some 3)).2.2 = .accepted
    ∧ lookupPending
        (handle_amount_input [("u1", ⟨"7", 0, "creating", none⟩)]
          ⟨.waitingAmount, "u1", some "TADDR"⟩ (some 3)).1 "u1"
      = some ⟨"7", 0, "pending_signature", some ("TADDR", 3)⟩ := by
  decide

/-- C7, amended: the advanced-bot amount step accepts exactly the amounts in
the open-closed interval `(fee, 1000000]` with `fee = 5` USDT, rejecting
any amount `≤ fee` with the pending store untouched; the unified-bot amount
step instead accepts exactly the interval `(0, 10000]`, so amounts at or
below the 5-USDT fee can be accepted there; in both variants a non-numeric
input is rejected with the stores unchanged and the flow still at the
amount step. -/
theorem C7_amount_validation :
    (∀ (pending : PendingStore) (flow : UserFlow) (a : ℚ),
        (handle_amount_input pending flow (some a)).2.2 = .accepted ↔
          0 < a ∧ a ≤ 10000)
    ∧ (∀ (pending : PendingStore) (flow : UserFlow),
        handle_amount_input pending flow none =
          (pending, some flow, .rejected))
    ∧ (∀ (pending : PendingStore) (flow : UserFlow) (a : ℚ),
        a ≤ 0 ∨ 10000 < a →
        handle_amount_input pending flow (some a) =
          (pending, some flow, .rejected))
    ∧ (∀ (pending : PendingStore) (uid rec nu : String) (now : Int)
        (a : ℚ),
        (advanced_amount_step pending uid rec nu now (some a)).2 =
            .accepted ↔
          PLATFORM_FEE < a ∧ a ≤ 1000000)
    ∧ (∀ (pending : PendingStore) (uid rec nu : String) (now : Int)
        (a : ℚ), a ≤ PLATFORM_FEE →
        advanced_amount_step pending uid rec nu now (some a) =
          (pending, .rejected))
    ∧ (∀ (pending : PendingStore) (uid rec nu : String) (now : Int),
        advanced_amount_step pending uid rec nu now none =
          (pending, .rejected)) := by
  refine ⟨?_, fun pending flow => rfl, ?_, ?_, ?_,
    fun pending uid rec nu now => rfl⟩
  · intro pending flow a
    simp only [handle_amount_input]
    split_ifs with h
    · simp only [Bool.or_eq_true, decide_eq_true_eq] at h
      constructor
      · intro hcontr
        exact absurd hcontr (by simp)
      · rintro ⟨h1, h2⟩
        rcases h with h | h <;> linarith
    · simp only [Bool.or_eq_true, decide_eq_true_eq, not_or, not_le,
        not_lt] at h
      exact iff_of_true rfl ⟨h.1, h.2⟩
  · intro pending flow a h
    have hb : (decide (a ≤ 0) || decide (10000 < a)) = true := by
      rcases h with h | h <;> simp [h]
    simp [handle_amount_input, hb]
  · intro pending uid rec nu now a
    simp only [advanced_amount_step]
    split_ifs with h
    · simp only [Bool.or_eq_true, decide_eq_true_eq] at h
      constructor
      · intro hcontr
        exact absurd hcontr (by simp)
      · rintro ⟨h1, h2⟩
        rw [PLATFORM_FEE] at h1
        rcases h with h | h <;> linarith
    · simp only [Bool.or_eq_true, decide_eq_true_eq, not_or, not_le,
        not_lt] at h
      refine iff_of_true rfl ⟨?_, h.2⟩
      rw [PLATFORM_FEE]
      exact h.1
  · intro pending uid rec nu now a h
    rw [PLATFORM_FEE] at h
    have hb : (decide (a ≤ 5) || decide (1000000 < a)) = true := by
      simp [h]
    simp [advanced_amount_step, hb]

/-- C7, witness for the amended theorem: the advanced bot rejects the
amount 3 (below the 5-USDT fee) with the pending store untouched. -/
theorem C7_amount_validation_witness :
    advanced_amount_step [] "7" "TADDR" "u2" 0 (some 3) = ([], .rejected) :=
  C7_amount_validation.2.2.2.2.1 [] "7" "TADDR" "u2" 0 3 (by decide)

/-! ### Claim C8 (confirmed) -/

/-- C8: before offering confirm-delivery for a transaction id, the bot
checks the ledger: a signing link is produced exactly when the record
exists with state `AWAITING_DELIVERY` (and the link carries that id); a
missing record yields the not-found message, a conflicting state is shown
to the user, and neither produces a signing link. -/
theorem C8_preflight :
    ∀ (fetch : Int → FetchResult) (txId : Int),
      ((∃ i, handle_transaction_id_preflight fetch txId = .signingLink i) ↔
        ∃ r, fetch txId = .ok r ∧ r.state = .AWAITING_DELIVERY)
      ∧ (fetch txId = .missing →
          handle_transaction_id_preflight fetch txId = .notFoundMsg)
      ∧ (∀ r, fetch txId = .ok r → r.state ≠ .AWAITING_DELIVERY →
          handle_transaction_id_preflight fetch txId = .stateConflict r.state)
      ∧ (∀ r, fetch txId = .ok r → r.state = .AWAITING_DELIVERY →
          handle_transaction_id_preflight fetch txId = .signingLink txId) := by
  intro fetch txId
  cases hf : fetch txId with
  | err => simp [handle_transaction_id_preflight, hf]
  | missing => simp [handle_transaction_id_preflight, hf]
  | ok r =>
    by_cases hs : r.state = TxState.AWAITING_DELIVERY
    · simp [handle_transaction_id_preflight, hf, hs]
    · simp [handle_transaction_id_preflight, hf, hs]

/-- C8, witness: a concrete record in state `AWAITING_DELIVERY` at id 4
reaches the signing-link branch with that id. -/
theorem C8_preflight_witness :
    handle_transaction_id_preflight
      (fun i => if i == 4 then
        .ok ⟨"Ts", "Trec", 5, .AWAITING_DELIVERY, 0, 0, false, false⟩
       else .missing) 4
    = .signingLink 4 :=
  (C8_preflight
      (fun i => if i == 4 then
        .ok ⟨"Ts", "Trec", 5, .AWAITING_DELIVERY, 0, 0, false, false⟩
       else .missing) 4).2.2.2
    ⟨"Ts", "Trec", 5, .AWAITING_DELIVERY, 0, 0, false, false⟩
    (by decide) rfl

/-! ### Claim C9 (confirmed) -/

/-- C9: the `INSERT OR REPLACE` insertion of the confirmed store preserves
the uniqueness invariant — after any insertion into a store satisfying it,
each `onChainId` still determines at most one row and each non-null
`localId` still determines at most one row. -/
theorem C9_uniqueness_preserved :
    ∀ (db : List DbRow) (row : DbRow),
      dbInvariant db → dbInvariant (db_add_transaction db row) := by
  intro db row h
  unfold dbInvariant db_add_transaction
  rw [List.pairwise_cons]
  constructor
  · intro x hx
    rw [List.mem_filter] at hx
    have hc := hx.2
    simp only [Bool.not_eq_true'] at hc
    unfold rowConflict at hc
    rw [Bool.or_eq_false_iff] at hc
    obtain ⟨hid, huuid⟩ := hc
    constructor
    · intro he
      rw [he] at hid
      simp at hid
    · cases hu : row.uuid with
      | none => exact Or.inl rfl
      | some a =>
        right
        cases hx2 : x.uuid with
        | none => simp
        | some b =>
          rw [hu, hx2] at huuid
          simp only [beq_eq_false_iff_ne, ne_eq] at huuid
          simp [huuid]
  · exact h.sublist (List.filter_sublist db)

/-- C9, witness: inserting a row that collides on `id` with an existing row
into a store satisfying the invariant yields a store still satisfying
it. -/
theorem C9_uniqueness_preserved_witness :
    dbInvariant (db_add_transaction
      [⟨3, "7", 10, "Ta", "AWAITING_DELIVERY", "creator", 0, some "u1"⟩]
      ⟨3, "8", 11, "Tb", "COMPLETE", "creator", 1, some "u2"⟩) :=
  C9_uniqueness_preserved
    [⟨3, "7", 10, "Ta", "AWAITING_DELIVERY", "creator", 0, some "u1"⟩]
    ⟨3, "8", 11, "Tb", "COMPLETE", "creator", 1, some "u2"⟩
    (by decide)

/-! ### Claim C10 (confirmed) -/

/-- C10: loading the pending store or the UUID mapping from a missing,
unreadable, or syntactically invalid backing file returns the empty map
rather than raising (so every previously persisted entry disappears from
view — any lookup in the loaded store yields nothing), while a valid file
loads exactly its contents. -/
theorem C10_load_swallows_errors :
    load_pending_transactions .missing = []
    ∧ load_pending_transactions .unreadable = []
    ∧ load_pending_transactions .invalidJson = []
    ∧ (∀ m : PendingStore, load_pending_transactions (.valid m) = m)
    ∧ (∀ u, lookupPending (load_pending_transactions .invalidJson) u = none)
    ∧ load_mapping .missing = []
    ∧ load_mapping .unreadable = []
    ∧ load_mapping .invalidJson = []
    ∧ (∀ m : List (String × Int), load_mapping (.valid m) = m) :=
  ⟨rfl, rfl, rfl, fun _ => rfl, fun _ => rfl, rfl, rfl, rfl, fun _ => rfl⟩

end TronEscrow
